import Mathlib

/-!
Vocalis — a shallow embedding of the incremental extraction/merge/validation core.

This file embeds, in Lean, the data model and operations of the Vocalis
repository that the specification's claims are about:

* `PrescriptionData` and its methods `getMissingRequiredFields`, `isComplete`,
  `_getFieldValue` and `copyWith` (frontend/lib/models/prescription_data.dart);
* the chat screen's turn handling `_sendMessage`, export gate
  `_generatePrescription` and formatter `_formatPrescriptionText`
  (the chat screen Dart file);
* `RAGService.getRequiredFields` / `validateExtractedData` and the static
  knowledge base (the RAG service JS file);
* `getTemplate` over `reportTemplates` (src/templates/reportTemplates.js);
* `LLMService.processTranscript`, `processDictation` and the deterministic
  local pipeline `localProcessDictation` / `extractSections` /
  `applyMedicalCorrections` (the LLM service JS file).

Strings are Lean `String`s; a Dart `String?` is `Option String` (`none` is
Dart `null`); JS `undefined`/missing object properties are also `none`.
External HTTP calls are modelled by passing their outcome as an explicit
argument of type `ApiOutcome`.
-/

namespace Vocalis

/-! ## PrescriptionData (frontend/lib/models/prescription_data.dart) -/

/-- The accumulated prescription record: seven nullable string fields,
exactly as in the Dart class `PrescriptionData`. -/
structure PrescriptionData where
  patientName : Option String
  patientAge : Option String
  diagnosis : Option String
  medication : Option String
  dosage : Option String
  duration : Option String
  specialInstructions : Option String
deriving Repr, DecidableEq

/-- The record with every field `null` — `PrescriptionData()` in Dart. -/
def PrescriptionData.empty : PrescriptionData :=
  ⟨none, none, none, none, none, none, none⟩

/-- Dart `_getFieldValue(String fieldName)`: switch over the field name,
returning `null` (here `none`) for an unknown name. -/
def PrescriptionData.getFieldValue (d : PrescriptionData) (fieldName : String) :
    Option String :=
  if fieldName = "patientName" then d.patientName
  else if fieldName = "patientAge" then d.patientAge
  else if fieldName = "diagnosis" then d.diagnosis
  else if fieldName = "medication" then d.medication
  else if fieldName = "dosage" then d.dosage
  else if fieldName = "duration" then d.duration
  else if fieldName = "specialInstructions" then d.specialInstructions
  else none

/-- The `required` list of `(field, label)` pairs from
`getMissingRequiredFields`, in source order. -/
def requiredFieldLabels : List (String × String) :=
  [("patientName", "Nom du patient"),
   ("patientAge", "Âge/Date de naissance"),
   ("diagnosis", "Diagnostic"),
   ("medication", "Médicament"),
   ("dosage", "Posologie"),
   ("duration", "Durée du traitement"),
   ("specialInstructions", "Instructions spéciales")]

/-- Dart `value == null || value.isEmpty`, the missing test used by
`getMissingRequiredFields`. -/
def isNullOrEmpty (v : Option String) : Bool :=
  match v with
  | none => true
  | some s => s == ""

/-- Dart `getMissingRequiredFields()`: walk the `required` list in order and
collect the labels of the fields whose value is `null` or empty. -/
def PrescriptionData.getMissingRequiredFields (d : PrescriptionData) : List String :=
  (requiredFieldLabels.filter fun pr => isNullOrEmpty (d.getFieldValue pr.1)).map Prod.snd

/-- Dart `isComplete()`: `getMissingRequiredFields().isEmpty`. -/
def PrescriptionData.isComplete (d : PrescriptionData) : Bool :=
  d.getMissingRequiredFields.isEmpty

/-- Dart's null-coalescing `incoming ?? existing` on nullable strings,
as used in every line of `copyWith`. -/
def coalesce (incoming existing : Option String) : Option String :=
  match incoming with
  | some v => some v
  | none => existing

/-- Dart `copyWith(...)`: every named argument is nullable and an omitted
argument is `null`, so the argument bundle is itself a `PrescriptionData`.
Each field of the result is `argument ?? this.field`. -/
def PrescriptionData.copyWith (d args : PrescriptionData) : PrescriptionData :=
  ⟨coalesce args.patientName d.patientName,
   coalesce args.patientAge d.patientAge,
   coalesce args.diagnosis d.diagnosis,
   coalesce args.medication d.medication,
   coalesce args.dosage d.dosage,
   coalesce args.duration d.duration,
   coalesce args.specialInstructions d.specialInstructions⟩

/-- The seven field keys of the prescription schema, as an enumeration used
to quantify claims "for each field key". -/
inductive PField where
  | patientName | patientAge | diagnosis | medication | dosage | duration
  | specialInstructions
deriving Repr, DecidableEq

/-- The Dart property name of a field key. -/
def PField.key : PField → String
  | .patientName => "patientName"
  | .patientAge => "patientAge"
  | .diagnosis => "diagnosis"
  | .medication => "medication"
  | .dosage => "dosage"
  | .duration => "duration"
  | .specialInstructions => "specialInstructions"

/-- The French label of a field key, as in the `required` list. -/
def PField.label : PField → String
  | .patientName => "Nom du patient"
  | .patientAge => "Âge/Date de naissance"
  | .diagnosis => "Diagnostic"
  | .medication => "Médicament"
  | .dosage => "Posologie"
  | .duration => "Durée du traitement"
  | .specialInstructions => "Instructions spéciales"

/-- Project a record at a field key (the typed face of `_getFieldValue`). -/
def PrescriptionData.fieldAt (d : PrescriptionData) : PField → Option String
  | .patientName => d.patientName
  | .patientAge => d.patientAge
  | .diagnosis => d.diagnosis
  | .medication => d.medication
  | .dosage => d.dosage
  | .duration => d.duration
  | .specialInstructions => d.specialInstructions

/-- An argument bundle for `copyWith` that supplies a value for exactly one
field and omits (passes `null` for) the other six. -/
def singleArg (k : PField) (v : String) : PrescriptionData :=
  match k with
  | .patientName => ⟨some v, none, none, none, none, none, none⟩
  | .patientAge => ⟨none, some v, none, none, none, none, none⟩
  | .diagnosis => ⟨none, none, some v, none, none, none, none⟩
  | .medication => ⟨none, none, none, some v, none, none, none⟩
  | .dosage => ⟨none, none, none, none, some v, none, none⟩
  | .duration => ⟨none, none, none, none, none, some v, none⟩
  | .specialInstructions => ⟨none, none, none, none, none, none, some v⟩

/-- Overwrite a record's field with a (non-null) string, used to express
"the absent field renders exactly as the marker would". -/
def PrescriptionData.setField (d : PrescriptionData) (k : PField) (v : String) :
    PrescriptionData :=
  match k with
  | .patientName => { d with patientName := some v }
  | .patientAge => { d with patientAge := some v }
  | .diagnosis => { d with diagnosis := some v }
  | .medication => { d with medication := some v }
  | .dosage => { d with dosage := some v }
  | .duration => { d with duration := some v }
  | .specialInstructions => { d with specialInstructions := some v }

/-! ## Chat screen: turn feedback, export gate and formatter -/

/-- The completion banner `_sendMessage` posts when the backend reports
`is_complete == true`. -/
def completionBanner : String :=
  "✓ Toutes les informations requises ont été collectées! Cliquez sur le bouton \"Générer ordonnance\" pour passer à la suite."

/-- The system message `_sendMessage` appends after a turn, from the backend
reply's `is_complete` flag and `missing_fields` list: the completion banner
when complete, otherwise — when the missing list is non-empty — a single
message enumerating every missing field joined by a comma, otherwise no
system message. -/
def nextSystemMessage (isCompleteFlag : Bool) (missingFields : List String) :
    Option String :=
  if isCompleteFlag then some completionBanner
  else if missingFields.isEmpty then none
  else some ("Informations manquantes: " ++ String.intercalate ", " missingFields)

/-- Dart `_formatPrescriptionText`: the fixed document layout, each field
rendered as `value ?? 'N/A'`. The trailing current date is passed in as
`today` (the source reads the wall clock there). -/
def formatPrescriptionText (today : String) (d : PrescriptionData) : String :=
  "ORDONNANCE MEDICALE\n\nPatient: " ++ (d.patientName.getD "N/A") ++
  "\nÂge: " ++ (d.patientAge.getD "N/A") ++
  "\n\nDIAGNOSTIC:\n" ++ (d.diagnosis.getD "N/A") ++
  "\n\nMEDICAMENT:\n" ++ (d.medication.getD "N/A") ++
  "\n\nPOSOLOGIE:\n" ++ (d.dosage.getD "N/A") ++
  "\n\nDUREE:\n" ++ (d.duration.getD "N/A") ++
  "\n\nINSTRUCTIONS SPECIALES:\n" ++ (d.specialInstructions.getD "N/A") ++
  "\n\nDate: " ++ today

/-- The spec's error taxonomy entry for a premature export: raised with the
list of missing-field labels shown to the user. -/
inductive ExportError where
  | incompleteExportAttempt : List String → ExportError
deriving Repr, DecidableEq

/-- Dart `_generatePrescription`: if the record is not complete, surface the
missing-fields error and produce no document text; otherwise render the
document with `_formatPrescriptionText`. -/
def generatePrescriptionStep (today : String) (d : PrescriptionData) :
    Except ExportError String :=
  if d.isComplete then Except.ok (formatPrescriptionText today d)
  else Except.error (ExportError.incompleteExportAttempt d.getMissingRequiredFields)

/-- The JS print path (`handlePrint`): each value is rendered as
`value || ''`, i.e. a missing value prints as the empty string. -/
def renderPrintValue (v : Option String) : String :=
  match v with
  | some s => s
  | none => ""

/-! ## RAGService: knowledge base, required fields and validation -/

/-- The `importance` strings used in the RAG knowledge base. -/
inductive Importance where
  | critique | haute | moyenne
deriving Repr, DecidableEq

/-- The three regexes attached to knowledge-base fields. -/
inductive FormatRule where
  | letterSpaceDash
  | upperAlnum
  | ddmmyyyy
deriving Repr, DecidableEq

/-- JS `\s` whitespace (the common members; the exotic Unicode space
code points do not occur in this repository's data). -/
def jsWhitespace (c : Char) : Bool :=
  c = ' ' ∨ c = '\t' ∨ c = '\n' ∨ c = '\r' ∨ c = '\x0b' ∨ c = '\x0c' ∨ c = '\u00A0'

/-- A decimal digit. -/
def isDigitChar (c : Char) : Bool := '0' ≤ c ∧ c ≤ '9'

/-- Run one of the knowledge-base regexes on a candidate value.
`letterSpaceDash` is `^[A-Za-zÀ-ÿ\s-]+$` (the `À-ÿ` range is the code
points 0xC0 through 0xFF), `upperAlnum` is `^[A-Z0-9]+$` and
`ddmmyyyy` is `^\d\d/\d\d/\d\d\d\d$`. -/
def runFormatRule : FormatRule → String → Bool
  | .letterSpaceDash, s =>
    !s.data.isEmpty && s.data.all fun c =>
      ('A' ≤ c ∧ c ≤ 'Z') ∨ ('a' ≤ c ∧ c ≤ 'z') ∨
      (0xC0 ≤ c.val ∧ c.val ≤ 0xFF) ∨ jsWhitespace c ∨ c = '-'
  | .upperAlnum, s =>
    !s.data.isEmpty && s.data.all fun c => ('A' ≤ c ∧ c ≤ 'Z') ∨ isDigitChar c
  | .ddmmyyyy, s =>
    match s.data with
    | [d1, d2, s1, m1, m2, s2, y1, y2, y3, y4] =>
      isDigitChar d1 && isDigitChar d2 && s1 == '/' && isDigitChar m1 &&
      isDigitChar m2 && s2 == '/' && isDigitChar y1 && isDigitChar y2 &&
      isDigitChar y3 && isDigitChar y4
    | _ => false

/-- One entry of a knowledge base's `requiredFields` map: its path key,
label, importance, optional `format` description and optional `validation`
regex. The purely informational metadata (examples, templates, options,
defaults, structure and guideline lists) is never read by
`getRequiredFields` or `validateExtractedData` and is not modelled. -/
structure KBField where
  path : String
  label : String
  importance : Importance
  format : Option String
  validation : Option FormatRule
deriving Repr, DecidableEq

/-- The `knowledgeBase.scanner.requiredFields` map, in object order. -/
def scannerKBFields : List KBField :=
  [⟨"patientInfo.patientName", "Nom du patient", .critique, some "Nom Prénom",
    some .letterSpaceDash⟩,
   ⟨"patientInfo.patientId", "Numéro de dossier", .critique,
    some "Numérique ou alphanumérique", some .upperAlnum⟩,
   ⟨"patientInfo.birthDate", "Date de naissance", .critique, some "JJ/MM/AAAA",
    some .ddmmyyyy⟩,
   ⟨"examInfo.indication", "Indication clinique", .critique, some "Texte libre", none⟩,
   ⟨"technique", "Technique d\x27examen", .haute, some "Description technique", none⟩,
   ⟨"results.findings", "Constatations", .critique,
    some "Description détaillée des observations", none⟩,
   ⟨"conclusion", "Conclusion", .critique, some "Synthèse concise", none⟩]

/-- The `knowledgeBase.mri.requiredFields` map, in object order. -/
def mriKBFields : List KBField :=
  [⟨"patientInfo.patientName", "Nom du patient", .critique, some "Nom Prénom", none⟩,
   ⟨"patientInfo.patientId", "Numéro de dossier", .critique,
    some "Numérique ou alphanumérique", none⟩,
   ⟨"examInfo.indication", "Indication clinique", .critique, some "Texte libre", none⟩,
   ⟨"examInfo.fieldStrength", "Champ magnétique", .haute, some "1.5T ou 3T", none⟩,
   ⟨"technique", "Séquences réalisées", .haute, some "Liste des séquences", none⟩,
   ⟨"results.findings", "Constatations", .critique,
    some "Description par séquence et par structure", none⟩,
   ⟨"conclusion", "Conclusion", .critique, some "Synthèse avec corrélation clinique", none⟩]

/-- The `knowledgeBase.echo.requiredFields` map, in object order. -/
def echoKBFields : List KBField :=
  [⟨"patientInfo.patientName", "Nom du patient", .critique, none, none⟩,
   ⟨"examInfo.indication", "Indication", .critique, none, none⟩,
   ⟨"examInfo.probe", "Type de sonde", .moyenne, none, none⟩,
   ⟨"results.findings", "Constatations", .critique, none, none⟩,
   ⟨"results.measurements", "Mesures", .haute, some "Biométrie avec unités", none⟩,
   ⟨"conclusion", "Conclusion", .critique, none, none⟩]

/-- Lookup `RAGService.knowledgeBase[examType]` (just the `requiredFields` part,
which is all `getRequiredFields` and `validateExtractedData` read):
a property lookup that yields nothing for an unregistered exam type. -/
def knowledgeBase (examType : String) : Option (List KBField) :=
  if examType = "scanner" then some scannerKBFields
  else if examType = "mri" then some mriKBFields
  else if examType = "echo" then some echoKBFields
  else none

/-- The extracted-data object, read through `getValueByPath`: a map from a
field path to the string found there (`none` when the path is missing). -/
def RecordData : Type := String → Option String

/-- JS `!value || value === '[MANQUANT]'`: the value counts as missing when
it is absent, the empty string, or the explicit missing sentinel. -/
def jsMissing (v : Option String) : Bool :=
  match v with
  | none => true
  | some s => s == "" || s == "[MANQUANT]"

/-- One entry of the `errors` or `warnings` array produced by
`validateExtractedData`. -/
structure ValidationIssue where
  field : String
  message : String
  severity : String
deriving Repr, DecidableEq

/-- The result of `RAGService.validateExtractedData`. -/
structure ValidationResult where
  isValid : Bool
  errors : List ValidationIssue
  warnings : List ValidationIssue
deriving Repr, DecidableEq

/-- The per-field step of `validateExtractedData`'s `forEach`: push an
error for a missing critical field, a warning for a missing high-importance
field, and an error for a present value that fails the field's regex. -/
def validateField (data : RecordData) (acc : List ValidationIssue × List ValidationIssue)
    (f : KBField) : List ValidationIssue × List ValidationIssue :=
  let value := data f.path
  if jsMissing value then
    match f.importance with
    | .critique => (acc.1 ++ [⟨f.path, f.label ++ " est obligatoire", "error"⟩], acc.2)
    | .haute => (acc.1, acc.2 ++ [⟨f.path, f.label ++ " est recommandé", "warning"⟩])
    | .moyenne => acc
  else
    match f.validation with
    | some rule =>
      if runFormatRule rule (value.getD "") then acc
      else
        (acc.1 ++ [⟨f.path,
          f.label ++ " n\x27est pas au bon format (attendu: " ++
            f.format.getD "undefined" ++ ")", "error"⟩], acc.2)
    | none => acc

/-- JS `RAGService.validateExtractedData(data, examType)`: vacuous success for
an unregistered exam type, otherwise the fold of `validateField` over the
knowledge base's fields; `isValid` is `errors.length === 0`. -/
def validateExtractedData (data : RecordData) (examType : String) : ValidationResult :=
  match knowledgeBase examType with
  | none => ⟨true, [], []⟩
  | some kbFields =>
    let final := kbFields.foldl (validateField data) ([], [])
    ⟨final.1.isEmpty, final.1, final.2⟩

namespace RAGService

/-- JS `RAGService.getRequiredFields(examType)`: the empty map for an
unregistered type, otherwise the critical-importance entries in order. -/
def getRequiredFields (examType : String) : List KBField :=
  match knowledgeBase examType with
  | none => []
  | some kbFields => kbFields.filter fun f => f.importance == Importance.critique

end RAGService

/-! ## reportTemplates (src/templates/reportTemplates.js) -/

/-- A template field's `defaultValue`: a fixed string or the current date
(`new Date().toISOString().split('T')[0]`). -/
inductive TDefault where
  | str : String → TDefault
  | currentDate : TDefault
deriving Repr, DecidableEq

/-- One node of a template's `fields` array: either a plain entry
(id, label, type, `required`, `options`, `defaultValue`, `rows`) or a
`type: 'section'` grouping with nested fields. -/
inductive TField where
  | entry (id label ftype : String) (required : Bool) (options : List String)
      (defaultValue : Option TDefault) (rows : Option Nat)
  | group (id label : String) (fields : List TField)
deriving Repr

/-- A document template: `title`, `icon` and the ordered field tree. -/
structure Template where
  title : String
  icon : String
  fields : List TField
deriving Repr

/-- The `reportTemplates.scanner` template. -/
def scannerTemplate : Template :=
  ⟨"Compte-Rendu de Scanner", "scanner",
   [.group "patientInfo" "Informations Patient"
      [.entry "patientName" "Nom du patient" "text" true [] none none,
       .entry "patientId" "Numéro de dossier" "text" true [] none none,
       .entry "birthDate" "Date de naissance" "date" true [] none none,
       .entry "examDate" "Date de l\x27examen" "date" true [] (some .currentDate) none],
    .group "examInfo" "Informations de l\x27Examen"
      [.entry "examType" "Type d\x27examen" "select" true
         ["Scanner thoracique", "Scanner abdomino-pelvien", "Scanner cérébral",
          "Scanner des membres", "Scanner rachis"] none none,
       .entry "indication" "Indication clinique" "textarea" true [] none none,
       .entry "contrast" "Produit de contraste" "select" false
         ["Aucun", "Iodé IV", "Iodé per os", "Iodé IV + per os"] none none],
    .entry "technique" "Technique" "textarea" false []
      (some (.str "Examen réalisé en coupes axiales jointives de [région] sans puis avec injection de produit de contraste iodé par voie intraveineuse (sauf contre-indication).\nReconstructions multiplanaires.")) none,
    .group "results" "Résultats"
      [.entry "findings" "Constatations" "textarea" true [] none (some 8),
       .entry "measurements" "Mesures" "textarea" false [] none (some 4)],
    .entry "conclusion" "Conclusion" "textarea" true [] none (some 4)]⟩

/-- The `reportTemplates.mri` template. -/
def mriTemplate : Template :=
  ⟨"Compte-Rendu d\x27IRM", "mri",
   [.group "patientInfo" "Informations Patient"
      [.entry "patientName" "Nom du patient" "text" true [] none none,
       .entry "patientId" "Numéro de dossier" "text" true [] none none,
       .entry "birthDate" "Date de naissance" "date" true [] none none,
       .entry "examDate" "Date de l\x27examen" "date" true [] (some .currentDate) none],
    .group "examInfo" "Informations de l\x27Examen"
      [.entry "examType" "Type d\x27examen" "select" true
         ["IRM cérébrale", "IRM médullaire", "IRM ostéo-articulaire",
          "IRM abdomino-pelvienne", "IRM cardiaque"] none none,
       .entry "indication" "Indication clinique" "textarea" true [] none none,
       .entry "contrast" "Produit de contraste" "select" false
         ["Aucun", "Gadolinium IV"] none none,
       .entry "fieldStrength" "Champ magnétique" "select" false
         ["1.5 Tesla", "3 Tesla"] (some (.str "1.5 Tesla")) none],
    .entry "technique" "Technique" "textarea" false []
      (some (.str "Examen IRM [champ] Tesla réalisé en séquences :\n- T1\n- T2\n- FLAIR\n- Diffusion\n- T1 avec injection de Gadolinium (si nécessaire)\n\nCoupes dans les trois plans de l\x27espace.")) none,
    .group "results" "Résultats"
      [.entry "findings" "Constatations" "textarea" true [] none (some 10),
       .entry "sequences" "Analyse par séquence" "textarea" false [] none (some 6),
       .entry "measurements" "Mesures" "textarea" false [] none (some 4)],
    .entry "conclusion" "Conclusion" "textarea" true [] none (some 4)]⟩

/-- The `reportTemplates.echo` template. -/
def echoTemplate : Template :=
  ⟨"Compte-Rendu d\x27Échographie", "echo",
   [.group "patientInfo" "Informations Patient"
      [.entry "patientName" "Nom du patient" "text" true [] none none,
       .entry "patientId" "Numéro de dossier" "text" true [] none none,
       .entry "birthDate" "Date de naissance" "date" true [] none none,
       .entry "examDate" "Date de l\x27examen" "date" true [] (some .currentDate) none],
    .group "examInfo" "Informations de l\x27Examen"
      [.entry "examType" "Type d\x27examen" "select" true
         ["Échographie abdominale", "Échographie pelvienne", "Échographie cardiaque",
          "Échographie thyroïdienne", "Échographie obstétricale", "Échographie doppler"]
         none none,
       .entry "indication" "Indication clinique" "textarea" true [] none none,
       .entry "probe" "Sonde utilisée" "select" false
         ["Sonde convexe", "Sonde linéaire", "Sonde endocavitaire", "Sonde cardiaque"]
         none none],
    .entry "technique" "Technique" "textarea" false []
      (some (.str "Examen échographique réalisé avec sonde [type de sonde] en conditions techniques satisfaisantes.\nPatient à jeun (si applicable).\nExploration systématique des organes demandés.")) none,
    .group "results" "Résultats"
      [.entry "findings" "Constatations" "textarea" true [] none (some 8),
       .entry "measurements" "Mesures et biométrie" "textarea" false [] none (some 6),
       .entry "doppler" "Analyse Doppler" "textarea" false [] none (some 4)],
    .entry "conclusion" "Conclusion" "textarea" true [] none (some 4)]⟩

/-- JS `getTemplate(reportType)`, i.e. `reportTemplates[reportType] || null`. -/
def getTemplate (reportType : String) : Option Template :=
  if reportType = "scanner" then some scannerTemplate
  else if reportType = "mri" then some mriTemplate
  else if reportType = "echo" then some echoTemplate
  else none

/-! ## LLMService and the deterministic local pipeline -/

/-- The outcome of an external HTTP call as seen by the service code:
either a parsed payload, or a failure (network error, non-OK status or
unusable body), carrying the error message that would be thrown. -/
inductive ApiOutcome (α : Type) where
  | ok : α → ApiOutcome α
  | failed : String → ApiOutcome α
deriving Repr, DecidableEq

/-- The `sections` object built by `extractSections`. `patientInfo` starts
as the empty object and is never written by the local pipeline. -/
structure Sections where
  patientInfo : List (String × String)
  indication : String
  technique : String
  findings : String
  conclusion : String
  recommendations : String
deriving Repr, DecidableEq

/-- The five keyword-classified section keys, in the object order of the
`keywords` map. -/
inductive SectionKey where
  | indication | technique | findings | conclusion | recommendations
deriving Repr, DecidableEq

/-- The `keywords` map of `extractSections`, in object order. -/
def sectionKeywords : List (SectionKey × List String) :=
  [(.indication, ["indication", "motif", "raison", "pour"]),
   (.technique, ["technique", "protocole", "séquence", "acquisition"]),
   (.findings, ["résultat", "constat", "observation", "mesure", "retrouve", "montre"]),
   (.conclusion, ["conclusion", "en conclusion", "diagnostic", "impression"]),
   (.recommendations, ["recommand", "suivi", "contrôle", "proposé"])]

/-- Does `needle` occur as a prefix-at-some-position of `hay`? -/
def containsAux (needle : List Char) : List Char → Bool
  | [] => needle.isEmpty
  | c :: rest => needle.isPrefixOf (c :: rest) || containsAux needle rest

/-- JS `hay.includes(needle)`. -/
def containsStr (hay needle : String) : Bool :=
  containsAux needle.data hay.data

/-- The update `sections[section] += str`. -/
def sectionAppend (s : Sections) (k : SectionKey) (str : String) : Sections :=
  match k with
  | .indication => { s with indication := s.indication ++ str }
  | .technique => { s with technique := s.technique ++ str }
  | .findings => { s with findings := s.findings ++ str }
  | .conclusion => { s with conclusion := s.conclusion ++ str }
  | .recommendations => { s with recommendations := s.recommendations ++ str }

/-- JS `text.split(/[.!?]+/).filter(s => s.trim())`: split on sentence
delimiters and keep the pieces whose trim is non-empty. (Splitting on each
delimiter rather than on runs only adds blank pieces, which the filter
removes.) -/
def splitSentences (text : String) : List String :=
  (text.split fun c => c = '.' || c = '!' || c = '?').filter fun s => !s.trim.isEmpty

/-- Classify one sentence: the first section (in `keywords` order) one of
whose keywords occurs in the lowercased sentence receives
`sentence.trim() + '. '`; an unclassified sentence is dropped. -/
def assignSentence (secs : Sections) (sentence : String) : Sections :=
  let lower := sentence.toLower
  match sectionKeywords.find? (fun kw => kw.2.any fun w => containsStr lower w) with
  | some kw => sectionAppend secs kw.1 (sentence.trim ++ ". ")
  | none => secs

/-- JS `LLMService.extractSections(text, reportType)` (the `reportType`
argument is unused in the source body): keyword-based sentence routing,
then the fallback that dumps the whole text into `findings` when both
`findings` and `conclusion` stayed empty. -/
def extractSections (text reportType : String) : Sections :=
  let _ := reportType
  let secs := (splitSentences text).foldl assignSentence ⟨[], "", "", "", "", ""⟩
  if secs.findings == "" && secs.conclusion == "" then { secs with findings := text }
  else secs

/-- The ordered `corrections` map of `applyMedicalCorrections`. Every key
is non-empty and made of JS word characters. -/
def medicalCorrections : List (String × String) :=
  [("irm", "IRM"), ("scanner", "Scanner"), ("echo", "échographie"),
   ("ecographie", "échographie"), ("mm", "mm"), ("cm", "cm"), ("ml", "mL"),
   ("l", "L"), ("foi", "foie"), ("rein", "rein"), ("reins", "reins"),
   ("vesicule", "vésicule"), ("rate", "rate"), ("pancreas", "pancréas"),
   ("pas de", "absence de"), ("normal", "de morphologie normale"),
   ("rien", "absence d\x27anomalie")]

/-- JS `\w`: ASCII letters, digits and underscore (accented letters are
not word characters in a JS regex, matching the source's `\b` behaviour). -/
def isWordChar (c : Char) : Bool :=
  ('a' ≤ c ∧ c ≤ 'z') ∨ ('A' ≤ c ∧ c ≤ 'Z') ∨ ('0' ≤ c ∧ c ≤ '9') ∨ c = '_'

/-- Regex `\b` after the matched word: end of input or a non-word character. -/
def boundaryAfter : List Char → Bool
  | [] => true
  | c :: _ => !isWordChar c

/-- Scanner for `text.replace(new RegExp('\\b' + wrong + '\\b', 'gi'), right)`:
left-to-right, non-overlapping, case-insensitive whole-word replacement.
`prevIsWord` tracks whether the previous character of the original text is a
word character (`false` at the start of the string). `wrong` is non-empty
for every correction in the source map. -/
def replaceWordAux (wrong right : List Char) : List Char → Bool → List Char
  | [], _ => []
  | c :: rest, prevIsWord =>
    if !prevIsWord && ((c :: rest).take wrong.length).map Char.toLower == wrong &&
        boundaryAfter ((c :: rest).drop wrong.length) then
      right ++ replaceWordAux wrong right (rest.drop (wrong.length - 1))
        (isWordChar (wrong.getLastD ' '))
    else
      c :: replaceWordAux wrong right rest (isWordChar c)
termination_by l _ => l.length
decreasing_by
  · simp only [List.length_drop, List.length_cons]
    omega
  · simp only [List.length_cons]
    omega

/-- Whole-word case-insensitive global replacement on strings. -/
def replaceWordAll (wrong right text : String) : String :=
  ⟨replaceWordAux wrong.data right.data text.data false⟩

/-- A lowercase ASCII letter, the `[a-z]` of the capitalization regex. -/
def isLowerAlpha (c : Char) : Bool := 'a' ≤ c ∧ c ≤ 'z'

/-- Scanner for the tail of `/(^|\. )([a-z])/g`: uppercase a lowercase
letter that follows a literal dot-space; scanning resumes after the
matched letter. -/
def capitalizeAux : List Char → List Char
  | '.' :: ' ' :: c :: rest =>
    if isLowerAlpha c then '.' :: ' ' :: c.toUpper :: capitalizeAux rest
    else '.' :: capitalizeAux (' ' :: c :: rest)
  | c :: rest => c :: capitalizeAux rest
  | [] => []
termination_by l => l.length
decreasing_by
  · simp only [List.length_cons]
    omega
  · simp only [List.length_cons]
    omega
  · simp only [List.length_cons]
    omega

/-- JS `corrected.replace(/(^|\. )([a-z])/g, (m, p1, p2) => p1 + p2.toUpperCase())`:
the `^` alternative fires only at the very start of the string. -/
def capitalizeSentences (s : String) : String :=
  match s.data with
  | [] => ""
  | c :: rest =>
    if isLowerAlpha c then ⟨c.toUpper :: capitalizeAux rest⟩
    else ⟨capitalizeAux (c :: rest)⟩

/-- The per-string body of `applyMedicalCorrections`: fold the ordered
corrections map, then capitalize sentence starts. -/
def applyCorrectionsTo (v : String) : String :=
  capitalizeSentences
    (medicalCorrections.foldl (fun acc p => replaceWordAll p.1 p.2 acc) v)

/-- JS `LLMService.applyMedicalCorrections(sections)`: every string-valued
entry is corrected; the non-string `patientInfo` object passes through. -/
def applyMedicalCorrections (secs : Sections) : Sections :=
  { secs with
    indication := applyCorrectionsTo secs.indication,
    technique := applyCorrectionsTo secs.technique,
    findings := applyCorrectionsTo secs.findings,
    conclusion := applyCorrectionsTo secs.conclusion,
    recommendations := applyCorrectionsTo secs.recommendations }

/-- The value of `LLMService.localProcessDictation`: `success: true`, the
corrected sections, and the `metadata` fields (the wall-clock timestamp is
not modelled). -/
structure LocalReport where
  success : Bool
  report : Sections
  processedBy : String
  reportTypeMeta : String
deriving Repr, DecidableEq

/-- JS `LLMService.localProcessDictation(dictationText, reportType, template)`:
deterministic extraction plus medical-terminology corrections; the
`template` argument is unused by the local path. -/
def localProcessDictation (dictationText reportType : String) : LocalReport :=
  ⟨true, applyMedicalCorrections (extractSections dictationText reportType),
   "local", reportType⟩

namespace LLMService

/-- JS `LLMService.processDictation`: return the enrichment payload on
success; on any failure of the external call, fall back to
`localProcessDictation` — the caller never sees an exception. -/
def processDictation {α : Type} (apiResult : ApiOutcome α)
    (dictationText reportType : String) : α ⊕ LocalReport :=
  match apiResult with
  | .ok d => Sum.inl d
  | .failed _ => Sum.inr (localProcessDictation dictationText reportType)

/-- JS `LLMService.processTranscript`: return the parsed payload on success;
on failure (`!response.ok` or a thrown fetch error) the catch block logs
and rethrows, so the failure propagates to the caller. -/
def processTranscript {α : Type} (apiResult : ApiOutcome α) : Except String α :=
  match apiResult with
  | .ok d => Except.ok d
  | .failed msg => Except.error msg

end LLMService

/-! ## Helper lemmas -/

/-- Reapplying `??` keeps its left value. -/
theorem coalesce_self (a b : Option String) : coalesce a (coalesce a b) = coalesce a b := by
  cases a <;> rfl

/-- The value `incoming ?? existing` can only be `null` when both sides are. -/
theorem coalesce_eq_none {a b : Option String} (h : coalesce a b = none) : b = none := by
  cases a with
  | none => exact h
  | some v => simp [coalesce] at h

/-- The Dart missing test holds exactly for `null` and the empty string. -/
theorem isNullOrEmpty_iff (v : Option String) :
    isNullOrEmpty v = true ↔ v = none ∨ v = some "" := by
  cases v with
  | none => simp [isNullOrEmpty]
  | some s => simp [isNullOrEmpty]

/-- The error (if any) that `validateField` pushes for one knowledge-base
field: a missing critical field, or a present value failing the field's
regex. -/
def errOf (data : RecordData) (f : KBField) : Option ValidationIssue :=
  if jsMissing (data f.path) then
    match f.importance with
    | .critique => some ⟨f.path, f.label ++ " est obligatoire", "error"⟩
    | .haute => none
    | .moyenne => none
  else
    match f.validation with
    | some rule =>
      if runFormatRule rule ((data f.path).getD "") then none
      else some ⟨f.path,
        f.label ++ " n\x27est pas au bon format (attendu: " ++
          f.format.getD "undefined" ++ ")", "error"⟩
    | none => none

/-- The warning (if any) that `validateField` pushes for one field: a
missing high-importance field. -/
def warnOf (data : RecordData) (f : KBField) : Option ValidationIssue :=
  if jsMissing (data f.path) then
    match f.importance with
    | .critique => none
    | .haute => some ⟨f.path, f.label ++ " est recommandé", "warning"⟩
    | .moyenne => none
  else none

/-- One step of the validation fold appends at most one error and at most
one warning, as described by `errOf` and `warnOf`. -/
theorem validateField_eq (data : RecordData)
    (acc : List ValidationIssue × List ValidationIssue) (f : KBField) :
    validateField data acc f =
      (acc.1 ++ (errOf data f).toList, acc.2 ++ (warnOf data f).toList) := by
  unfold validateField errOf warnOf
  cases hm : jsMissing (data f.path)
  · simp only [hm, Bool.false_eq_true, if_false]
    cases hv : f.validation with
    | none => simp
    | some rule =>
      cases hr : runFormatRule rule ((data f.path).getD "") <;> simp [hr]
  · simp only [hm, if_true]
    cases hi : f.importance <;> simp

/-- The validation fold over a field list produces exactly the
`errOf`/`warnOf` entries of each field, in order. -/
theorem validate_fold (data : RecordData) (fields : List KBField)
    (acc : List ValidationIssue × List ValidationIssue) :
    fields.foldl (validateField data) acc =
      (acc.1 ++ fields.filterMap (errOf data),
       acc.2 ++ fields.filterMap (warnOf data)) := by
  induction fields generalizing acc with
  | nil => simp
  | cons f fs ih =>
    rw [List.foldl_cons, validateField_eq, ih]
    cases he : errOf data f <;> cases hw : warnOf data f <;>
      simp [List.filterMap_cons, he, hw]

/-- A field contributes no error iff it is not a missing critical field and
its regex (when present) accepts its present value. -/
theorem errOf_eq_none_iff (data : RecordData) (f : KBField) :
    errOf data f = none ↔
      ((f.importance = Importance.critique → jsMissing (data f.path) = false) ∧
       (∀ rule, f.validation = some rule → jsMissing (data f.path) = false →
         runFormatRule rule ((data f.path).getD "") = true)) := by
  unfold errOf
  cases hm : jsMissing (data f.path)
  · simp only [hm, Bool.false_eq_true, if_false]
    cases hv : f.validation with
    | none => simp [hv]
    | some rule =>
      cases hr : runFormatRule rule ((data f.path).getD "") <;> simp [hv, hr]
  · simp only [hm, if_true]
    cases hi : f.importance <;> simp [hi, hm]

/-! ## Claim theorems -/

/-- C6: merge (Dart `copyWith`) is idempotent: for every record `r` and
partial `p`, `merge(merge(r, p), p) = merge(r, p)`. -/
theorem merge_idempotent (r p : PrescriptionData) :
    (r.copyWith p).copyWith p = r.copyWith p := by
  cases r; cases p
  simp [PrescriptionData.copyWith, coalesce_self]

/-- C9: a field's label appears in `getMissingRequiredFields()` iff its value
is `null` or the empty string; the missing labels always form a sublist of
the fixed label list in the order patientName, patientAge, diagnosis,
medication, dosage, duration, specialInstructions; and `isComplete()` holds
iff no field is missing. -/
theorem missing_fields_characterization (d : PrescriptionData) :
    (∀ k : PField, k.label ∈ d.getMissingRequiredFields ↔
      (d.fieldAt k = none ∨ d.fieldAt k = some "")) ∧
    List.Sublist d.getMissingRequiredFields (requiredFieldLabels.map Prod.snd) ∧
    (d.isComplete = true ↔ d.getMissingRequiredFields = []) := by
  refine ⟨?_, ?_, ?_⟩
  · intro k
    cases k <;>
      simp [PrescriptionData.getMissingRequiredFields, requiredFieldLabels,
        PrescriptionData.getFieldValue, PField.label, PrescriptionData.fieldAt,
        List.mem_filter, isNullOrEmpty_iff]
  · exact List.Sublist.map Prod.snd (List.filter_sublist requiredFieldLabels)
  · exact List.isEmpty_iff

/-- C10: `copyWith` is a pure frame-preserving update: with no arguments it
returns the record unchanged; supplying a value for one field sets exactly
that field and leaves the other six untouched; and it can never reset a
non-null field back to null. -/
theorem copyWith_frame (d p : PrescriptionData) (k : PField) (v : String) :
    d.copyWith PrescriptionData.empty = d ∧
    (d.copyWith (singleArg k v)).fieldAt k = some v ∧
    (∀ j : PField, j ≠ k → (d.copyWith (singleArg k v)).fieldAt j = d.fieldAt j) ∧
    ((d.copyWith p).fieldAt k = none → d.fieldAt k = none) := by
  refine ⟨?_, ?_, ?_, ?_⟩
  · cases d; rfl
  · cases k <;> rfl
  · intro j hj
    cases k <;> cases j <;> first
      | exact absurd rfl hj
      | rfl
  · intro h
    cases k <;> exact coalesce_eq_none h

/-- C10 witness: at a concrete record, updating the diagnosis leaves the
patient name untouched. -/
theorem copyWith_frame_witness :
    ((⟨some "Jean Dupont", none, none, none, none, none, none⟩ : PrescriptionData).copyWith
      (singleArg PField.diagnosis "hypertension")).fieldAt PField.patientName =
      (⟨some "Jean Dupont", none, none, none, none, none, none⟩ : PrescriptionData).fieldAt
        PField.patientName :=
  (copyWith_frame ⟨some "Jean Dupont", none, none, none, none, none, none⟩
    PrescriptionData.empty PField.diagnosis "hypertension").2.2.1
    PField.patientName (by decide)

/-- C1 counterexample: the claim fails as stated. Start from a record whose
`patientName` is the non-absent `"Jean Dupont"` and merge a partial that
supplies the explicit empty string — not a non-empty replacement — for that
key: `copyWith` replaces the value with `""`, losing the previously
non-absent value. -/
theorem merge_loses_on_empty_cex :
    ((⟨some "Jean Dupont", none, none, none, none, none, none⟩ : PrescriptionData).copyWith
      ⟨some "", none, none, none, none, none, none⟩).patientName = some "" ∧
    isNullOrEmpty (some "") = true ∧
    ((⟨some "Jean Dupont", none, none, none, none, none, none⟩ : PrescriptionData).copyWith
      ⟨some "", none, none, none, none, none, none⟩).patientName ≠ some "Jean Dupont" := by
  decide

/-- C1 (amended): for each field key, a previously non-absent value survives
a merge unless the partial supplies any explicit (non-null) value for that
key — including the empty string — in which case the merged record holds
the partial's value. -/
theorem merge_preserves_nonabsent_amended (r p : PrescriptionData) (k : PField)
    (hr : r.fieldAt k ≠ none) :
    (p.fieldAt k = none → (r.copyWith p).fieldAt k = r.fieldAt k) ∧
    (∀ v, p.fieldAt k = some v → (r.copyWith p).fieldAt k = some v) := by
  constructor
  · intro h
    cases k <;> simp only [PrescriptionData.fieldAt] at h ⊢ <;>
      simp [PrescriptionData.copyWith, h, coalesce]
  · intro v h
    cases k <;> simp only [PrescriptionData.fieldAt] at h ⊢ <;>
      simp [PrescriptionData.copyWith, h, coalesce]

/-- C1 witness: at a concrete record and partial, the non-absent patient
name survives a merge whose partial omits that key. -/
theorem merge_preserves_nonabsent_witness :
    ((⟨some "Jean Dupont", none, none, none, none, none, none⟩ : PrescriptionData).copyWith
      ⟨none, some "45 ans", none, none, none, none, none⟩).fieldAt PField.patientName =
      some "Jean Dupont" :=
  (merge_preserves_nonabsent_amended
    ⟨some "Jean Dupont", none, none, none, none, none, none⟩
    ⟨none, some "45 ans", none, none, none, none, none⟩
    PField.patientName (by decide)).1 (by decide)

/-- C3: exporting the document from a session whose record is not complete
fails with the incomplete-export error (carrying the missing-field labels)
and yields no document text at all. In this model the error constructor
appears in no operation other than the export step. -/
theorem export_incomplete_fails (today : String) (d : PrescriptionData)
    (h : d.isComplete = false) :
    generatePrescriptionStep today d =
      Except.error (ExportError.incompleteExportAttempt d.getMissingRequiredFields) ∧
    ∀ s, generatePrescriptionStep today d ≠ Except.ok s := by
  constructor
  · simp [generatePrescriptionStep, h]
  · intro s
    simp [generatePrescriptionStep, h]

/-- C3 witness: exporting from the freshly created (all-null) record fails
with the incomplete-export error listing every field. -/
theorem export_incomplete_fails_witness :
    generatePrescriptionStep "2026-02-15" PrescriptionData.empty =
      Except.error (ExportError.incompleteExportAttempt
        PrescriptionData.empty.getMissingRequiredFields) :=
  (export_incomplete_fails "2026-02-15" PrescriptionData.empty (by decide)).1

/-- C7 counterexample: with two fields missing, the system message after the
turn is a single message enumerating both missing fields — not a request
for exactly one field. -/
theorem prompt_enumerates_two_cex :
    nextSystemMessage false ["Médicament", "Posologie"] =
      some "Informations manquantes: Médicament, Posologie" ∧
    containsStr "Informations manquantes: Médicament, Posologie" "Médicament" = true ∧
    containsStr "Informations manquantes: Médicament, Posologie" "Posologie" = true := by
  refine ⟨?_, by decide, by decide⟩
  rfl

/-- C7 (amended): whenever the record is not complete, the system message
posted after the turn enumerates the whole missing list, joined by a comma
— the code never narrows the request to the single highest-priority
missing field. -/
theorem prompt_lists_all_missing (d : PrescriptionData)
    (h : d.isComplete = false) :
    nextSystemMessage d.isComplete d.getMissingRequiredFields =
      some ("Informations manquantes: " ++
        String.intercalate ", " d.getMissingRequiredFields) := by
  have h' : d.getMissingRequiredFields.isEmpty = false := h
  simp [nextSystemMessage, h, h']

/-- C7 witness: on the all-null record, the posted message enumerates all
seven missing fields. -/
theorem prompt_lists_all_missing_witness :
    nextSystemMessage PrescriptionData.empty.isComplete
      PrescriptionData.empty.getMissingRequiredFields =
      some ("Informations manquantes: " ++
        String.intercalate ", " PrescriptionData.empty.getMissingRequiredFields) :=
  prompt_lists_all_missing PrescriptionData.empty (by decide)

/-- C8 counterexample: a record whose diagnosis is the empty string renders
with an empty DIAGNOSTIC section — the "not provided" marker `N/A` appears
nowhere in the document — and the JS print path renders missing values as
empty strings, so an absent-or-empty field is not rendered as an explicit
marker. -/
theorem empty_field_no_marker_cex :
    formatPrescriptionText "2026-02-15"
      ⟨some "Jean Dupont", some "45 ans", some "", some "Lisinopril",
       some "10mg", some "3 mois", some "à jeun"⟩ =
      "ORDONNANCE MEDICALE\n\nPatient: Jean Dupont\nÂge: 45 ans\n\nDIAGNOSTIC:\n\n\nMEDICAMENT:\nLisinopril\n\nPOSOLOGIE:\n10mg\n\nDUREE:\n3 mois\n\nINSTRUCTIONS SPECIALES:\nà jeun\n\nDate: 2026-02-15" ∧
    containsStr (formatPrescriptionText "2026-02-15"
      ⟨some "Jean Dupont", some "45 ans", some "", some "Lisinopril",
       some "10mg", some "3 mois", some "à jeun"⟩) "N/A" = false ∧
    renderPrintValue none = "" ∧ renderPrintValue (some "") = "" := by
  refine ⟨rfl, by decide, rfl, rfl⟩

/-- C8 (amended): a `null` field renders exactly as the explicit `N/A`
marker: the document equals the one obtained by setting that field to
`"N/A"`, so a never-populated field is not silently omitted. (A field
holding the empty string, by contrast, renders as the empty string.) -/
theorem absent_renders_marker_amended (today : String) (d : PrescriptionData)
    (k : PField) (h : d.fieldAt k = none) :
    formatPrescriptionText today d =
      formatPrescriptionText today (d.setField k "N/A") := by
  cases k <;> cases d <;>
    simp_all [PrescriptionData.fieldAt, PrescriptionData.setField,
      formatPrescriptionText]

/-- C8 witness: on the all-null record, the rendered document equals the one
with the diagnosis set to the marker. -/
theorem absent_renders_marker_witness :
    formatPrescriptionText "2026-02-15" PrescriptionData.empty =
      formatPrescriptionText "2026-02-15"
        (PrescriptionData.empty.setField PField.diagnosis "N/A") :=
  absent_renders_marker_amended "2026-02-15" PrescriptionData.empty
    PField.diagnosis (by decide)

/-- C4 counterexample: when the external call fails, `processTranscript`
propagates the failure to its caller instead of degrading to the
deterministic result — extraction through this entry point does raise. -/
theorem extraction_rethrow_cex :
    LLMService.processTranscript (α := Sections)
      (ApiOutcome.failed "LLM API error: Service Unavailable") =
      Except.error "LLM API error: Service Unavailable" := rfl

/-- C4 (amended): `processDictation` is total and degrades to the
deterministic local pipeline whenever the external enrichment call fails,
but `processTranscript` re-raises the external failure to its caller. -/
theorem extraction_total_amended (msg dictationText reportType : String) :
    LLMService.processDictation (α := LocalReport) (ApiOutcome.failed msg)
      dictationText reportType =
      Sum.inr (localProcessDictation dictationText reportType) ∧
    LLMService.processTranscript (α := Sections) (ApiOutcome.failed msg) =
      Except.error msg :=
  ⟨rfl, rfl⟩

/-- C2: for every record and registered schema, the validation verdict is
positive iff no critical-importance field is missing (absent, empty, or the
explicit missing sentinel) and no present value violates its field's format
rule; missing high- or medium-importance fields never make the verdict
negative (they appear nowhere in the right-hand side). -/
theorem validate_isComplete_iff (data : RecordData) (examType : String)
    (fields : List KBField) (hkb : knowledgeBase examType = some fields) :
    (validateExtractedData data examType).isValid = true ↔
      (∀ f ∈ fields, f.importance = Importance.critique →
        jsMissing (data f.path) = false) ∧
      (∀ f ∈ fields, ∀ rule, f.validation = some rule →
        jsMissing (data f.path) = false →
        runFormatRule rule ((data f.path).getD "") = true) := by
  unfold validateExtractedData
  rw [hkb]
  simp only [validate_fold, List.nil_append, List.isEmpty_iff,
    List.filterMap_eq_nil_iff, errOf_eq_none_iff]
  constructor
  · intro h
    exact ⟨fun f hf => (h f hf).1, fun f hf => (h f hf).2⟩
  · intro h f hf
    exact ⟨h.1 f hf, h.2 f hf⟩

/-- C2 witness: a record with every path populated by a plain value
validates as complete for the `echo` schema. -/
theorem validate_isComplete_iff_witness :
    (validateExtractedData (fun _ => some "ok") "echo").isValid = true := by
  refine (validate_isComplete_iff (fun _ => some "ok") "echo" echoKBFields rfl).mpr
    ⟨fun f _ _ => rfl, fun f hf rule hrule _ => ?_⟩
  fin_cases hf <;> simp_all

/-- C5 counterexample: for the unregistered document type
`"radiographie"`, the template lookup returns `null` (no error is raised),
the required-fields lookup returns the empty map, and validation of any
data vacuously succeeds — contradicting the claim that the lookup fails
with an `UnknownDocumentType` error. -/
theorem schema_lookup_null_cex :
    getTemplate "radiographie" = none ∧
    RAGService.getRequiredFields "radiographie" = [] ∧
    validateExtractedData (fun _ => none) "radiographie" =
      ⟨true, [], []⟩ := by
  refine ⟨rfl, rfl, rfl⟩

/-- C5 (amended): for every document type outside the registered set
(scanner, mri, echo), the lookups do not fail: `getTemplate` returns
`null`, `getRequiredFields` returns the empty map, and
`validateExtractedData` vacuously succeeds with no errors and no warnings
for any record; no `UnknownDocumentType` error exists in the code. -/
theorem schema_lookup_unregistered_amended (t : String)
    (h1 : t ≠ "scanner") (h2 : t ≠ "mri") (h3 : t ≠ "echo") :
    getTemplate t = none ∧
    RAGService.getRequiredFields t = [] ∧
    ∀ data : RecordData, validateExtractedData data t = ⟨true, [], []⟩ := by
  have hkb : knowledgeBase t = none := by
    simp [knowledgeBase, h1, h2, h3]
  refine ⟨?_, ?_, ?_⟩
  · simp [getTemplate, h1, h2, h3]
  · simp [RAGService.getRequiredFields, hkb]
  · intro data
    simp [validateExtractedData, hkb]

/-- C5 witness: the unregistered type `"radiologie"` yields the null
template, the empty required map and a vacuous validation success. -/
theorem schema_lookup_unregistered_witness :
    getTemplate "radiologie" = none ∧
    RAGService.getRequiredFields "radiologie" = [] ∧
    validateExtractedData (fun _ => some "x") "radiologie" = ⟨true, [], []⟩ := by
  have h := schema_lookup_unregistered_amended "radiologie"
    (by decide) (by decide) (by decide)
  exact ⟨h.1, h.2.1, h.2.2 (fun _ => some "x")⟩

end Vocalis
